import Mathlib

/-
Shallow embedding of `number_tileset.py` (the tile-labeling utility of the
love-game repository) and proofs about its two operations:

* `number_tileset` (spec name `labelTiles`): loads a tileset image, draws a
  1-based sequential index on every 16x16 cell, and saves the annotated copy.
* `print_tile_reference` (spec name `printTileGrid`): prints a textual grid of
  the same indices.

Modelling choices:

* Console output is modelled as the list of strings passed to `print`, one per
  call (the strings keep their embedded newline characters).
* The filesystem is an association list from paths to images; a save prepends,
  so a later write at the same path shadows an earlier one.
* A PIL image is its pixel dimensions, an abstract identifier of the source
  pixel buffer, and the list of drawing operations applied on top of it.
  `img.copy()` duplicates the value; `ImageDraw` appends operations and never
  changes the dimensions; `img.save` writes the value to the filesystem.
* The font that `PIL.ImageFont` ends up loading (the try/except chain at the
  top of `number_tileset`) is environment-dependent, so the embedding is
  parameterised by a `Font`: the function that `draw.textbbox` computes from
  the anchor point and the text.
* `os.path.splitext` is embedded faithfully to its CPython (posixpath)
  definition: split at the last dot that comes after the last path separator,
  unless every character between the separator and that dot is itself a dot.
-/

/-- Python `str.rjust` / the `{:Nd}` format for a non-negative integer:
pad on the left with spaces up to width `w`. -/
def rjust (w : Nat) (s : String) : String :=
  if s.length < w then String.mk (List.replicate (w - s.length) ' ') ++ s else s

/-- Index of the last occurrence of `c` in the list, Python `str.rfind`. -/
def rfindIdx (c : Char) : List Char → Option Nat
  | [] => none
  | a :: as =>
    match rfindIdx c as with
    | some i => some (i + 1)
    | none => if a = c then some 0 else none

/-- CPython `posixpath.splitext` on the character list of a path: split at the
last dot after the last separator, except when the characters between the
separator and the dot are all dots (a dotfile has no extension). -/
def splitextData (p : List Char) : List Char × List Char :=
  match rfindIdx '.' p with
  | none => (p, [])
  | some di =>
    let start :=
      match rfindIdx '/' p with
      | none => some 0
      | some si => if si < di then some (si + 1) else none
    match start with
    | none => (p, [])
    | some st =>
      if ((p.drop st).take (di - st)).all (fun ch => ch = '.') then (p, [])
      else (p.take di, p.drop di)

/-- `os.path.splitext` on strings. -/
def os_path_splitext (p : String) : String × String :=
  (String.mk (splitextData p.data).1, String.mk (splitextData p.data).2)

/-- Bounding box returned by `draw.textbbox`: left, top, right, bottom. -/
structure BBox where
  x0 : Int
  y0 : Int
  x1 : Int
  y1 : Int
  deriving DecidableEq

/-- The loaded font, abstracted to what the code observes of it: the bounding
box `draw.textbbox((x, y), s, font=font)` computes from an anchor and a text. -/
def Font : Type := Nat → Nat → String → BBox

/-- A drawing operation performed on the annotated copy. -/
inductive DrawOp where
  | rectangle (x0 y0 x1 y1 : Int) (fill : Nat × Nat × Nat × Nat)
  | text (x y : Nat) (s : String) (fill : Nat × Nat × Nat)
  deriving DecidableEq

/-- A PIL image: pixel dimensions, an abstract identifier of the source pixel
buffer, and the drawing operations applied on top of it in order. -/
structure PILImage where
  width : Nat
  height : Nat
  base : Nat
  ops : List DrawOp
  deriving DecidableEq

/-- The filesystem: an association list from paths to images; the head of the
list shadows later entries, so writing prepends. -/
abbrev FS : Type := List (String × PILImage)

/-- Look a path up in the filesystem (`os.path.exists` / `Image.open`). -/
def fsLookup (fs : FS) (p : String) : Option PILImage :=
  match fs with
  | [] => none
  | (q, img) :: rest => if q = p then some img else fsLookup rest p

/-- Write an image at a path (`img.save`), shadowing any previous entry. -/
def fsWrite (fs : FS) (p : String) (img : PILImage) : FS :=
  (p, img) :: fs

/-- The two drawing operations `number_tileset` performs for one cell: a
filled rectangle one unit larger than the text bounding box on each side,
then the index text at the anchor `(col*tile_size + 2, row*tile_size + 2)`. -/
def drawTileNumber (font : Font) (tile_size tile_number row col : Nat) : List DrawOp :=
  let x := col * tile_size + 2
  let y := row * tile_size + 2
  let bbox := font x y (toString tile_number)
  [DrawOp.rectangle (bbox.x0 - 1) (bbox.y0 - 1) (bbox.x1 + 1) (bbox.y1 + 1) (0, 0, 0, 180),
   DrawOp.text x y (toString tile_number) (255, 255, 0)]

/-- Body of the inner `for col in range(tiles_per_row)` loop of
`number_tileset`: draw the current tile number, then increment it. -/
def drawColStep (font : Font) (tile_size row : Nat) (st : Nat × List DrawOp) (col : Nat) :
    Nat × List DrawOp :=
  (st.1 + 1, st.2 ++ drawTileNumber font tile_size st.1 row col)

/-- The nested drawing loops of `number_tileset`: iterate rows then columns,
threading the counter `tile_number` (starting at 1) and the accumulated
drawing operations. Returns the final counter and the operations. -/
def drawNumbers (font : Font) (tile_size tiles_per_row tiles_per_col : Nat) :
    Nat × List DrawOp :=
  (List.range tiles_per_col).foldl
    (fun st row => (List.range tiles_per_row).foldl (drawColStep font tile_size row) st)
    (1, [])

/-- `number_tileset(tileset_path, output_path=None)`. Returns the Python
return value, the filesystem after the call, and the printed lines. -/
def number_tileset (font : Font) (fs : FS) (tileset_path : String)
    (output_path : Option String) : Bool × FS × List String :=
  match fsLookup fs tileset_path with
  | none => (false, fs, ["ERROR: Tileset file not found: " ++ tileset_path])
  | some img =>
    let width := img.width
    let height := img.height
    let numbered_img := img
    let tile_size := 16
    let tiles_per_row := width / tile_size
    let tiles_per_col := height / tile_size
    let progress :=
      ["Processing tileset: " ++ toString width ++ "x" ++ toString height ++ " pixels",
       "Tiles per row: " ++ toString tiles_per_row ++ ", Tiles per column: " ++
         toString tiles_per_col,
       "Total tiles: " ++ toString (tiles_per_row * tiles_per_col)]
    let drawn := drawNumbers font tile_size tiles_per_row tiles_per_col
    let numbered_img := { numbered_img with ops := numbered_img.ops ++ drawn.2 }
    let out_path :=
      match output_path with
      | none => (os_path_splitext tileset_path).1 ++ "-numbered.png"
      | some p => p
    (true, fsWrite fs out_path numbered_img,
     progress ++ ["SUCCESS: Numbered tileset saved as: " ++ out_path])

/-- The three lines `print_tile_reference` prints before the grid. -/
def refHeaders : List String :=
  ["\nTILE NUMBER REFERENCE GRID:",
   "Each number represents a tile index (1-based, left to right, top to bottom)",
   ""]

/-- The `f"Row {row+1:2d}: "` label opening a grid row. -/
def rowLabel (r : Nat) : String :=
  "Row " ++ rjust 2 (toString (r + 1)) ++ ": "

/-- Body of the inner `for col in range(tiles_per_row)` loop of
`print_tile_reference`: append `f"{tile_number:3d} "` and increment. -/
def refTokenStep (st : Nat × String) (_col : Nat) : Nat × String :=
  (st.1 + 1, st.2 ++ (rjust 3 (toString st.1) ++ " "))

/-- Body of the outer `for row in range(tiles_per_col)` loop of
`print_tile_reference`: build one grid row line and emit it. -/
def refRowStep (tiles_per_row : Nat) (st : Nat × List String) (row : Nat) :
    Nat × List String :=
  let st2 := (List.range tiles_per_row).foldl refTokenStep (st.1, rowLabel row)
  (st2.1, st.2 ++ [st2.2])

/-- `print_tile_reference(width, height, tile_size)`: the list of printed
lines, one entry per `print` call. -/
def print_tile_reference (width height tile_size : Nat) : List String :=
  let tiles_per_row := width / tile_size
  let tiles_per_col := height / tile_size
  let st := (List.range tiles_per_col).foldl (refRowStep tiles_per_row) (1, [])
  refHeaders ++ st.2 ++ ["\nTOTAL TILES: " ++ toString (st.1 - 1)]

/-- A call of `print_tile_reference(width, height)` that leaves `tile_size`
to its declared default of 16. -/
def print_tile_reference_default (width height : Nat) : List String :=
  print_tile_reference width height 16

/-- The sequence of number tokens a grid row line carries: `n` tokens,
starting at number `k`, each right-justified to 3 columns and followed by a
space. -/
def rowTokens (k n : Nat) : List String :=
  (List.range n).map (fun i => rjust 3 (toString (k + i)) ++ " ")

/-- Canonical form of the grid row line for 0-based row `r` in a grid with
`cols` columns. -/
def refRowLine (cols r : Nat) : String :=
  rowLabel r ++ String.join (rowTokens (r * cols + 1) cols)

/-- Canonical row-major form of the drawing operations: cell `(r, c)` of a
grid with `cols` columns receives tile number `r * cols + c + 1`. -/
def tilesDrawn (font : Font) (tile_size cols rows : Nat) : List DrawOp :=
  (List.range rows).flatMap fun r =>
    (List.range cols).flatMap fun c =>
      drawTileNumber font tile_size (r * cols + c + 1) r c

/-- A concrete font used to instantiate theorems: a fixed-advance 7x12 box. -/
def monoFont : Font :=
  fun x y s => ⟨(x : Int), (y : Int), (x : Int) + 7 * s.length, (y : Int) + 12⟩

/-- A concrete 64x32 source image with no prior drawing operations. -/
def sampleImg : PILImage :=
  { width := 64, height := 32, base := 0, ops := [] }

/-- A concrete filesystem holding `sampleImg` at `"dir/tileset.png"`. -/
def sampleFS : FS := [("dir/tileset.png", sampleImg)]

/-- String append is associative (via the underlying character lists). -/
theorem strAppend_assoc (a b c : String) : a ++ b ++ c = a ++ (b ++ c) := by
  apply String.ext
  simp [String.data_append, List.append_assoc]

/-- Appending the empty string on the right is the identity. -/
theorem strAppend_empty (s : String) : s ++ "" = s := by
  apply String.ext
  simp [String.data_append]

/-- `String.join` over a list extended on the right. -/
theorem strJoin_concat (l : List String) (x : String) :
    String.join (l ++ [x]) = String.join l ++ x := by
  simp [String.join, List.foldl_append]

/-- The inner loop of `print_tile_reference`, fully characterised: starting
from counter `k` and accumulated line `s`, `n` iterations append the `n`
tokens for numbers `k`..`k+n-1` and advance the counter to `k + n`. -/
theorem refTokenStep_foldl (n : Nat) : ∀ (k : Nat) (s : String),
    (List.range n).foldl refTokenStep (k, s) = (k + n, s ++ String.join (rowTokens k n)) := by
  induction n with
  | zero =>
    intro k s
    simp [rowTokens, String.join, strAppend_empty]
  | succ m ih =>
    intro k s
    rw [List.range_succ, List.foldl_append, ih]
    simp only [List.foldl_cons, List.foldl_nil, refTokenStep, rowTokens, List.range_succ,
      List.map_append, List.map_cons, List.map_nil, strJoin_concat]
    exact Prod.ext rfl (by rw [strAppend_assoc])

/-- The outer loop of `print_tile_reference`, fully characterised: the grid
rows are `refRowLine cols` for rows `0`..`rows-1` and the counter finishes at
`rows * cols + 1`. -/
theorem refRowStep_foldl (cols : Nat) : ∀ (rows : Nat),
    (List.range rows).foldl (refRowStep cols) (1, ([] : List String)) =
      (rows * cols + 1, (List.range rows).map (refRowLine cols)) := by
  intro rows
  induction rows with
  | zero => simp
  | succ m ih =>
    rw [List.range_succ, List.foldl_append, ih]
    simp only [List.foldl_cons, List.foldl_nil, refRowStep, refTokenStep_foldl,
      List.range_succ, List.map_append, List.map_cons, List.map_nil]
    refine Prod.ext ?_ ?_
    · simp [Nat.succ_mul]; ring
    · simp [refRowLine]

/-- `print_tile_reference` in closed form: the three headers, then one
canonical row line per grid row, then the total line with `rows * cols`. -/
theorem print_tile_reference_eq (w h ts : Nat) :
    print_tile_reference w h ts =
      refHeaders ++ (List.range (h / ts)).map (refRowLine (w / ts)) ++
        ["\nTOTAL TILES: " ++ toString ((h / ts) * (w / ts))] := by
  simp only [print_tile_reference]
  rw [refRowStep_foldl]
  simp

/-- The inner drawing loop of `number_tileset`, fully characterised. -/
theorem drawColStep_foldl (font : Font) (ts row : Nat) (n : Nat) :
    ∀ (k : Nat) (s : List DrawOp),
    (List.range n).foldl (drawColStep font ts row) (k, s) =
      (k + n, s ++ (List.range n).flatMap (fun c => drawTileNumber font ts (k + c) row c)) := by
  induction n with
  | zero =>
    intro k s
    simp
  | succ m ih =>
    intro k s
    rw [List.range_succ, List.foldl_append, ih]
    simp only [List.foldl_cons, List.foldl_nil, drawColStep, List.range_succ,
      List.flatMap_append, List.flatMap_cons, List.flatMap_nil, List.append_nil]
    exact Prod.ext rfl (by simp [List.append_assoc])

/-- The nested drawing loops of `number_tileset` in closed form: the final
counter is `rows * cols + 1` and the operations are the canonical row-major
`tilesDrawn`. -/
theorem drawNumbers_eq (font : Font) (ts cols rows : Nat) :
    drawNumbers font ts cols rows = (rows * cols + 1, tilesDrawn font ts cols rows) := by
  unfold drawNumbers tilesDrawn
  induction rows with
  | zero => simp
  | succ m ih =>
    rw [List.range_succ, List.foldl_append, ih]
    simp only [List.foldl_cons, List.foldl_nil, drawColStep_foldl,
      List.range_succ, List.flatMap_append, List.flatMap_cons, List.flatMap_nil,
      List.append_nil]
    have hk : ∀ c : Nat, m * cols + 1 + c = m * cols + c + 1 := by intro c; ring
    refine Prod.ext ?_ ?_
    · simp [Nat.succ_mul]; ring
    · simp only [hk]

/-- `number_tileset` on an existing file, in closed form. -/
theorem number_tileset_found (font : Font) (fs : FS) (path : String)
    (op : Option String) (img : PILImage) (h : fsLookup fs path = some img) :
    number_tileset font fs path op =
      (true,
       fsWrite fs
         (match op with
          | none => (os_path_splitext path).1 ++ "-numbered.png"
          | some p => p)
         { img with ops := img.ops ++ tilesDrawn font 16 (img.width / 16) (img.height / 16) },
       ["Processing tileset: " ++ toString img.width ++ "x" ++ toString img.height ++ " pixels",
        "Tiles per row: " ++ toString (img.width / 16) ++ ", Tiles per column: " ++
          toString (img.height / 16),
        "Total tiles: " ++ toString ((img.width / 16) * (img.height / 16)),
        "SUCCESS: Numbered tileset saved as: " ++
          (match op with
           | none => (os_path_splitext path).1 ++ "-numbered.png"
           | some p => p)]) := by
  cases op with
  | none => simp [number_tileset, h, drawNumbers_eq]
  | some p => simp [number_tileset, h, drawNumbers_eq]

/-- Looking up the path just written returns the written image. -/
theorem fsLookup_write_self (fs : FS) (p : String) (img : PILImage) :
    fsLookup (fsWrite fs p img) p = some img := by
  simp [fsLookup, fsWrite]

/-- Writing at one path does not change the lookup of a different path. -/
theorem fsLookup_write_other (fs : FS) (p q : String) (img : PILImage)
    (h : q ≠ p) : fsLookup (fsWrite fs q img) p = fsLookup fs p := by
  simp [fsLookup, fsWrite, h]

/-- If `rfindIdx` finds an index it is in bounds. -/
theorem rfindIdx_lt {c : Char} : ∀ {l : List Char} {i : Nat},
    rfindIdx c l = some i → i < l.length := by
  intro l
  induction l with
  | nil => intro i h; simp [rfindIdx] at h
  | cons a as ih =>
    intro i h
    simp only [rfindIdx] at h
    cases hr : rfindIdx c as with
    | some j =>
      rw [hr] at h
      simp at h
      subst h
      exact Nat.succ_lt_succ (ih hr)
    | none =>
      rw [hr] at h
      by_cases hac : a = c
      · simp [hac] at h; subst h; simp
      · simp [hac] at h

/-- The character at the index `rfindIdx` finds is the one searched for. -/
theorem rfindIdx_get {c : Char} : ∀ {l : List Char} {i : Nat} (h : rfindIdx c l = some i),
    l.get ⟨i, rfindIdx_lt h⟩ = c := by
  intro l
  induction l with
  | nil => intro i h; simp [rfindIdx] at h
  | cons a as ih =>
    intro i h
    simp only [rfindIdx] at h
    cases hr : rfindIdx c as with
    | some j =>
      rw [hr] at h
      simp at h
      subst h
      simpa using ih hr
    | none =>
      rw [hr] at h
      by_cases hac : a = c
      · simp [hac] at h; subst h; simpa using hac
      · simp [hac] at h

/-- The base returned by `splitextData` is either the whole path (no extension
found) or a proper prefix cut at a dot character of the path. -/
theorem splitextData_base_cases (d : List Char) :
    (splitextData d).1 = d ∨
      ∃ i, ∃ hlt : i < d.length, (splitextData d).1 = d.take i ∧ d.get ⟨i, hlt⟩ = '.' := by
  unfold splitextData
  cases hdot : rfindIdx '.' d with
  | none => left; rfl
  | some di =>
    simp only []
    cases hsep : rfindIdx '/' d with
    | none =>
      simp only []
      cases hall : ((d.drop 0).take (di - 0)).all (fun ch => ch = '.') with
      | true => left; simp [hall]
      | false =>
        right
        refine ⟨di, rfindIdx_lt hdot, ?_, rfindIdx_get hdot⟩
        simp [hall]
    | some si =>
      simp only []
      by_cases hlt : si < di
      · simp only [hlt, if_true]
        cases hall : ((d.drop (si + 1)).take (di - (si + 1))).all (fun ch => ch = '.') with
        | true => left; simp [hall]
        | false =>
          right
          refine ⟨di, rfindIdx_lt hdot, ?_, rfindIdx_get hdot⟩
          simp [hall]
      · left; simp [hlt]

/-- The default output path `number_tileset` derives is never the input path:
the derived path either is strictly longer (when the path has no extension)
or differs at the character position where the extension's dot sat. -/
theorem default_out_ne (p : String) :
    (os_path_splitext p).1 ++ "-numbered.png" ≠ p := by
  intro hEq
  have hd : (splitextData p.data).1 ++ ("-numbered.png" : String).data = p.data := by
    have := congrArg String.data hEq
    rw [String.data_append] at this
    exact this
  cases splitextData_base_cases p.data with
  | inl hbase =>
    have hlen := congrArg List.length hd
    rw [hbase] at hlen
    simp [List.length_append] at hlen
  | inr hex =>
    obtain ⟨i, hlt, hb, hdot⟩ := hex
    rw [hb] at hd
    have hdrop : p.data.drop i = '.' :: p.data.drop (i + 1) := by
      rw [List.drop_eq_getElem_cons hlt]
      have hchar : p.data[i] = '.' := by
        simpa [List.get_eq_getElem] using hdot
      rw [hchar]
    have hdecomp : p.data = p.data.take i ++ ('.' :: p.data.drop (i + 1)) := by
      conv_lhs => rw [← List.take_append_drop i p.data]
      rw [hdrop]
    have h2 : p.data.take i ++ ("-numbered.png" : String).data =
        p.data.take i ++ ('.' :: p.data.drop (i + 1)) := hd.trans hdecomp
    have htail := List.append_cancel_left h2
    have hc : ("-numbered.png" : String).data =
        '-' :: ("numbered.png" : String).data := rfl
    rw [hc] at htail
    injection htail with h1 h2
    exact absurd h1 (by decide)

/-- Folding a state-preserving body over any list leaves the state unchanged
(the outer drawing loop when there are zero columns). -/
theorem foldl_state_fixed {α σ : Type} (l : List α) (s : σ) :
    l.foldl (fun st _ => st) s = s := by
  induction l generalizing s with
  | nil => rfl
  | cons a as ih => simp only [List.foldl_cons]; exact ih s

/-- With zero rows the drawing loop draws nothing. -/
theorem drawNumbers_rows_zero (font : Font) (ts cols : Nat) :
    drawNumbers font ts cols 0 = (1, []) := rfl

/-- With zero columns the drawing loop draws nothing. -/
theorem drawNumbers_cols_zero (font : Font) (ts rows : Nat) :
    drawNumbers font ts 0 rows = (1, []) := by
  unfold drawNumbers
  exact foldl_state_fixed (List.range rows) ((1 : Nat), ([] : List DrawOp))

/-- An image extended by no drawing operations is unchanged. -/
theorem ops_append_nil (img : PILImage) :
    { img with ops := img.ops ++ [] } = img := by
  cases img; simp

/-- C1: tile numbering is identical in both operations and row-major, 1-based
and contiguous: for every width, height and cellSize > 0, the cell at 0-based
grid position `(r, c)` receives index `r * (width / cellSize) + c + 1`, and
the last index assigned equals `(height / cellSize) * (width / cellSize)`, in
both `print_tile_reference` and the drawing loop of `number_tileset`. -/
theorem claim_tile_numbering_row_major (w h ts : Nat) (hts : 0 < ts) (font : Font)
    (r c : Nat) (hr : r < h / ts) (hc : c < w / ts) :
    ((print_tile_reference w h ts)[3 + r]? = some (refRowLine (w / ts) r)
      ∧ (rowTokens (r * (w / ts) + 1) (w / ts))[c]? =
          some (rjust 3 (toString (r * (w / ts) + c + 1)) ++ " ")
      ∧ (print_tile_reference w h ts).getLast? =
          some ("\nTOTAL TILES: " ++ toString ((h / ts) * (w / ts))))
    ∧ ((drawNumbers font ts (w / ts) (h / ts)).2 = tilesDrawn font ts (w / ts) (h / ts)
      ∧ (drawNumbers font ts (w / ts) (h / ts)).1 - 1 = (h / ts) * (w / ts)) := by
  refine ⟨⟨?_, ?_, ?_⟩, ?_, ?_⟩
  · rw [print_tile_reference_eq, List.append_assoc,
      List.getElem?_append_right (by simp [refHeaders] : refHeaders.length ≤ 3 + r)]
    have h3 : 3 + r - refHeaders.length = r := by simp [refHeaders]
    rw [h3, List.getElem?_append_left (by simpa using hr)]
    simp [List.getElem?_range hr]
  · have hadd : r * (w / ts) + 1 + c = r * (w / ts) + c + 1 := by ring
    simp [rowTokens, List.getElem?_range hc, hadd]
  · rw [print_tile_reference_eq, List.getLast?_concat]
  · rw [drawNumbers_eq]
  · rw [drawNumbers_eq]
    simp

/-- C1 witness at width 64, height 32, cellSize 16, cell (1, 2). -/
theorem claim_tile_numbering_row_major_witness :
    0 < 16 ∧ 1 < 32 / 16 ∧ 2 < 64 / 16 ∧
    (((print_tile_reference 64 32 16)[3 + 1]? = some (refRowLine (64 / 16) 1)
      ∧ (rowTokens (1 * (64 / 16) + 1) (64 / 16))[2]? =
          some (rjust 3 (toString (1 * (64 / 16) + 2 + 1)) ++ " ")
      ∧ (print_tile_reference 64 32 16).getLast? =
          some ("\nTOTAL TILES: " ++ toString ((32 / 16) * (64 / 16))))
    ∧ ((drawNumbers monoFont 16 (64 / 16) (32 / 16)).2 = tilesDrawn monoFont 16 (64 / 16) (32 / 16)
      ∧ (drawNumbers monoFont 16 (64 / 16) (32 / 16)).1 - 1 = (32 / 16) * (64 / 16))) :=
  ⟨by decide, by decide, by decide,
   claim_tile_numbering_row_major 64 32 16 (by decide) monoFont 1 2 (by decide) (by decide)⟩

/-- C2: `print_tile_reference` emits the three fixed headers, then exactly
`height / cellSize` row lines, then the trailing total line carrying the
value `(width / cellSize) * (height / cellSize)`; each row line consists of
the row label followed by exactly `width / cellSize` number tokens, each
right-justified to 3 character positions and separated by spaces. -/
theorem claim_print_grid_shape (w h ts : Nat) (hts : 0 < ts) :
    print_tile_reference w h ts =
        refHeaders ++ (List.range (h / ts)).map (refRowLine (w / ts)) ++
          ["\nTOTAL TILES: " ++ toString ((w / ts) * (h / ts))]
      ∧ ((List.range (h / ts)).map (refRowLine (w / ts))).length = h / ts
      ∧ (∀ r, refRowLine (w / ts) r =
          rowLabel r ++ String.join (rowTokens (r * (w / ts) + 1) (w / ts)))
      ∧ (∀ k, (rowTokens k (w / ts)).length = w / ts) := by
  refine ⟨?_, by simp, fun r => rfl, fun k => by simp [rowTokens]⟩
  rw [print_tile_reference_eq, Nat.mul_comm]

/-- C2 witness at width 48, height 32, cellSize 16. -/
theorem claim_print_grid_shape_witness :
    0 < 16 ∧
    (print_tile_reference 48 32 16 =
        refHeaders ++ (List.range (32 / 16)).map (refRowLine (48 / 16)) ++
          ["\nTOTAL TILES: " ++ toString ((48 / 16) * (32 / 16))]
      ∧ ((List.range (32 / 16)).map (refRowLine (48 / 16))).length = 32 / 16
      ∧ (∀ r, refRowLine (48 / 16) r =
          rowLabel r ++ String.join (rowTokens (r * (48 / 16) + 1) (48 / 16)))
      ∧ (∀ k, (rowTokens k (48 / 16)).length = 48 / 16)) :=
  ⟨by decide, claim_print_grid_shape 48 32 16 (by decide)⟩

/-- C3: on a path that resolves to no file, `number_tileset` returns `False`,
prints only the error message, and leaves the filesystem unchanged — no
output file is created and no load, draw or save step happens. -/
theorem claim_missing_file_no_write (font : Font) (fs : FS) (path : String)
    (op : Option String) (h : fsLookup fs path = none) :
    number_tileset font fs path op =
      (false, fs, ["ERROR: Tileset file not found: " ++ path]) := by
  unfold number_tileset
  rw [h]

/-- C3 witness: an empty filesystem and the path `"missing.png"`. -/
theorem claim_missing_file_no_write_witness :
    fsLookup [] "missing.png" = none ∧
    number_tileset monoFont [] "missing.png" none =
      (false, [], ["ERROR: Tileset file not found: " ++ "missing.png"]) :=
  ⟨rfl, claim_missing_file_no_write monoFont [] "missing.png" none rfl⟩

/-- C4 counterexample: at width 64, height 32, cellSize 16 the first grid row
line the code prints is `"Row  1:   1   2   3   4 "` — it carries a trailing
space, so it is not byte-for-byte the claimed `"Row  1:   1   2   3   4"`. -/
theorem claim_concrete_grid_counterexample :
    (print_tile_reference 64 32 16)[3]? = some "Row  1:   1   2   3   4 "
    ∧ (print_tile_reference 64 32 16)[3]? ≠ some "Row  1:   1   2   3   4" := by
  constructor
  · decide
  · decide

/-- C4 amended: for width 64, height 32, cellSize 16 the code computes
cols = 4 and rows = 2 and prints exactly the two grid lines
`"Row  1:   1   2   3   4 "` and `"Row  2:   5   6   7   8 "` (each ending in
a trailing space), followed by a total of 8 tiles. -/
theorem claim_concrete_grid_exact :
    64 / 16 = 4 ∧ 32 / 16 = 2 ∧
    print_tile_reference 64 32 16 =
      ["\nTILE NUMBER REFERENCE GRID:",
       "Each number represents a tile index (1-based, left to right, top to bottom)",
       "",
       "Row  1:   1   2   3   4 ",
       "Row  2:   5   6   7   8 ",
       "\nTOTAL TILES: 8"] := by
  refine ⟨rfl, rfl, ?_⟩
  decide

/-- C5: on an existing source image whose width and height are exact
multiples of the cell size 16, `number_tileset` writes an output image with
exactly the input dimensions: annotation never resizes the canvas. -/
theorem claim_output_dimensions_preserved (font : Font) (fs : FS) (path : String)
    (op : Option String) (img : PILImage) (h : fsLookup fs path = some img)
    (hw : 16 ∣ img.width) (hh : 16 ∣ img.height) :
    ∃ out, fsLookup (number_tileset font fs path op).2.1
        (match op with
         | none => (os_path_splitext path).1 ++ "-numbered.png"
         | some p => p) = some out
      ∧ out.width = img.width ∧ out.height = img.height := by
  rw [number_tileset_found font fs path op img h]
  exact ⟨_, fsLookup_write_self .., rfl, rfl⟩

/-- C5 witness: the 64x32 sample image at `"dir/tileset.png"`. -/
theorem claim_output_dimensions_preserved_witness :
    fsLookup sampleFS "dir/tileset.png" = some sampleImg
    ∧ 16 ∣ sampleImg.width ∧ 16 ∣ sampleImg.height
    ∧ ∃ out, fsLookup (number_tileset monoFont sampleFS "dir/tileset.png" none).2.1
        (match (none : Option String) with
         | none => (os_path_splitext "dir/tileset.png").1 ++ "-numbered.png"
         | some p => p) = some out
      ∧ out.width = sampleImg.width ∧ out.height = sampleImg.height :=
  ⟨by decide, by decide, by decide,
   claim_output_dimensions_preserved monoFont sampleFS "dir/tileset.png" none sampleImg
     (by decide) (by decide) (by decide)⟩

/-- C6: with no output path supplied, `number_tileset` saves the annotated
image at the path obtained by stripping the source extension with
`os.path.splitext` and appending `"-numbered.png"`; in particular
`"dir/tileset.png"` yields `"dir/tileset-numbered.png"`. -/
theorem claim_default_output_path (font : Font) (fs : FS) (path : String)
    (img : PILImage) (h : fsLookup fs path = some img) :
    (number_tileset font fs path none).2.1 =
        fsWrite fs ((os_path_splitext path).1 ++ "-numbered.png")
          { img with ops := img.ops ++ tilesDrawn font 16 (img.width / 16) (img.height / 16) }
      ∧ (os_path_splitext "dir/tileset.png").1 ++ "-numbered.png" =
          "dir/tileset-numbered.png" := by
  refine ⟨?_, by decide⟩
  rw [number_tileset_found font fs path none img h]

/-- C6 witness: the sample filesystem. -/
theorem claim_default_output_path_witness :
    fsLookup sampleFS "dir/tileset.png" = some sampleImg
    ∧ ((number_tileset monoFont sampleFS "dir/tileset.png" none).2.1 =
        fsWrite sampleFS ((os_path_splitext "dir/tileset.png").1 ++ "-numbered.png")
          { sampleImg with
              ops := sampleImg.ops ++
                tilesDrawn monoFont 16 (sampleImg.width / 16) (sampleImg.height / 16) }
      ∧ (os_path_splitext "dir/tileset.png").1 ++ "-numbered.png" =
          "dir/tileset-numbered.png") :=
  ⟨by decide,
   claim_default_output_path monoFont sampleFS "dir/tileset.png" sampleImg (by decide)⟩

/-- C7: for every cell at 0-based grid position `(r, c)` of an existing
image, the saved output of `number_tileset` contains the index text drawn at
the anchor `(c*16 + 2, r*16 + 2)` and, beneath it, a filled rectangle that
extends the text bounding box by exactly one unit on each side. -/
theorem claim_anchor_and_padding (font : Font) (fs : FS) (path : String)
    (img : PILImage) (r c : Nat) (h : fsLookup fs path = some img)
    (hr : r < img.height / 16) (hc : c < img.width / 16) :
    ∃ out, fsLookup (number_tileset font fs path none).2.1
        ((os_path_splitext path).1 ++ "-numbered.png") = some out
      ∧ DrawOp.text (c * 16 + 2) (r * 16 + 2)
          (toString (r * (img.width / 16) + c + 1)) (255, 255, 0) ∈ out.ops
      ∧ DrawOp.rectangle
          ((font (c * 16 + 2) (r * 16 + 2) (toString (r * (img.width / 16) + c + 1))).x0 - 1)
          ((font (c * 16 + 2) (r * 16 + 2) (toString (r * (img.width / 16) + c + 1))).y0 - 1)
          ((font (c * 16 + 2) (r * 16 + 2) (toString (r * (img.width / 16) + c + 1))).x1 + 1)
          ((font (c * 16 + 2) (r * 16 + 2) (toString (r * (img.width / 16) + c + 1))).y1 + 1)
          (0, 0, 0, 180) ∈ out.ops := by
  have hmem : ∀ op ∈ drawTileNumber font 16 (r * (img.width / 16) + c + 1) r c,
      op ∈ tilesDrawn font 16 (img.width / 16) (img.height / 16) := by
    intro op hop
    unfold tilesDrawn
    exact List.mem_flatMap.mpr
      ⟨r, List.mem_range.mpr hr, List.mem_flatMap.mpr ⟨c, List.mem_range.mpr hc, hop⟩⟩
  rw [number_tileset_found font fs path none img h]
  refine ⟨_, fsLookup_write_self .., ?_, ?_⟩
  · exact List.mem_append_right _ (hmem _ (by simp [drawTileNumber]))
  · exact List.mem_append_right _ (hmem _ (by simp [drawTileNumber]))

/-- C7 witness: cell (1, 3) of the 64x32 sample image. -/
theorem claim_anchor_and_padding_witness :
    fsLookup sampleFS "dir/tileset.png" = some sampleImg
    ∧ 1 < sampleImg.height / 16 ∧ 3 < sampleImg.width / 16
    ∧ ∃ out, fsLookup (number_tileset monoFont sampleFS "dir/tileset.png" none).2.1
        ((os_path_splitext "dir/tileset.png").1 ++ "-numbered.png") = some out
      ∧ DrawOp.text (3 * 16 + 2) (1 * 16 + 2)
          (toString (1 * (sampleImg.width / 16) + 3 + 1)) (255, 255, 0) ∈ out.ops
      ∧ DrawOp.rectangle
          ((monoFont (3 * 16 + 2) (1 * 16 + 2)
            (toString (1 * (sampleImg.width / 16) + 3 + 1))).x0 - 1)
          ((monoFont (3 * 16 + 2) (1 * 16 + 2)
            (toString (1 * (sampleImg.width / 16) + 3 + 1))).y0 - 1)
          ((monoFont (3 * 16 + 2) (1 * 16 + 2)
            (toString (1 * (sampleImg.width / 16) + 3 + 1))).x1 + 1)
          ((monoFont (3 * 16 + 2) (1 * 16 + 2)
            (toString (1 * (sampleImg.width / 16) + 3 + 1))).y1 + 1)
          (0, 0, 0, 180) ∈ out.ops :=
  ⟨by decide, by decide, by decide,
   claim_anchor_and_padding monoFont sampleFS "dir/tileset.png" sampleImg 1 3
     (by decide) (by decide) (by decide)⟩

/-- C8: `number_tileset` is deterministic and the second of two runs on the
same input with the default output path overwrites the first with identical
content: both runs leave the same annotated image at the derived output
path (which never coincides with the input path, so the second run reads
the same source). -/
theorem claim_deterministic_rerun (font : Font) (fs : FS) (path : String)
    (img : PILImage) (h : fsLookup fs path = some img) :
    ∃ out,
      fsLookup (number_tileset font fs path none).2.1
          ((os_path_splitext path).1 ++ "-numbered.png") = some out
      ∧ fsLookup (number_tileset font (number_tileset font fs path none).2.1 path none).2.1
          ((os_path_splitext path).1 ++ "-numbered.png") = some out := by
  have h1 := number_tileset_found font fs path none img h
  have hne := default_out_ne path
  have h2 : fsLookup (number_tileset font fs path none).2.1 path = some img := by
    rw [h1]
    rw [fsLookup_write_other _ _ _ _ hne]
    exact h
  have h3 := number_tileset_found font (number_tileset font fs path none).2.1 path none img h2
  refine ⟨{ img with ops := img.ops ++ tilesDrawn font 16 (img.width / 16) (img.height / 16) },
    ?_, ?_⟩
  · rw [h1]; exact fsLookup_write_self ..
  · rw [h3]; exact fsLookup_write_self ..

/-- C8 witness: two runs on the sample filesystem. -/
theorem claim_deterministic_rerun_witness :
    fsLookup sampleFS "dir/tileset.png" = some sampleImg
    ∧ ∃ out,
      fsLookup (number_tileset monoFont sampleFS "dir/tileset.png" none).2.1
          ((os_path_splitext "dir/tileset.png").1 ++ "-numbered.png") = some out
      ∧ fsLookup (number_tileset monoFont
            (number_tileset monoFont sampleFS "dir/tileset.png" none).2.1
            "dir/tileset.png" none).2.1
          ((os_path_splitext "dir/tileset.png").1 ++ "-numbered.png") = some out :=
  ⟨by decide,
   claim_deterministic_rerun monoFont sampleFS "dir/tileset.png" sampleImg (by decide)⟩

/-- C9: on an existing image whose width or height is smaller than the cell
size (so the grid has zero columns or zero rows), `number_tileset` draws
nothing, still writes the output file — an unmodified copy of the input —
and returns `True`: a zero-cell image is not an error. -/
theorem claim_zero_cells_unmodified_copy (font : Font) (fs : FS) (path : String)
    (img : PILImage) (h : fsLookup fs path = some img)
    (hsmall : img.width < 16 ∨ img.height < 16) :
    (number_tileset font fs path none).1 = true
    ∧ (number_tileset font fs path none).2.1 =
        fsWrite fs ((os_path_splitext path).1 ++ "-numbered.png") img := by
  have hz : tilesDrawn font 16 (img.width / 16) (img.height / 16) = [] := by
    cases hsmall with
    | inl hw => rw [Nat.div_eq_of_lt hw]; simp [tilesDrawn]
    | inr hh => rw [Nat.div_eq_of_lt hh]; simp [tilesDrawn]
  constructor
  · rw [number_tileset_found font fs path none img h]
  · rw [number_tileset_found font fs path none img h, hz, ops_append_nil]

/-- C9 witness: an 8x8 image, smaller than one 16x16 cell. -/
theorem claim_zero_cells_unmodified_copy_witness :
    fsLookup [("tiny.png", PILImage.mk 8 8 1 [])] "tiny.png" = some (PILImage.mk 8 8 1 [])
    ∧ ((PILImage.mk 8 8 1 []).width < 16 ∨ (PILImage.mk 8 8 1 []).height < 16)
    ∧ ((number_tileset monoFont [("tiny.png", PILImage.mk 8 8 1 [])] "tiny.png" none).1 = true
      ∧ (number_tileset monoFont [("tiny.png", PILImage.mk 8 8 1 [])] "tiny.png" none).2.1 =
          fsWrite [("tiny.png", PILImage.mk 8 8 1 [])]
            ((os_path_splitext "tiny.png").1 ++ "-numbered.png") (PILImage.mk 8 8 1 [])) :=
  ⟨by decide, by decide,
   claim_zero_cells_unmodified_copy monoFont [("tiny.png", PILImage.mk 8 8 1 [])]
     "tiny.png" (PILImage.mk 8 8 1 []) (by decide) (by decide)⟩

/-- C10: the labeling operation's cell size is fixed at 16: `number_tileset`
takes no cell-size argument in the embedding, every invocation reports and
uses a grid of `width / 16` by `height / 16` cells and draws with tile size
16, while `print_tile_reference` exposes the cell size as a parameter whose
declared default is 16. -/
theorem claim_cell_size_fixed_16 (font : Font) (fs : FS) (path : String)
    (img : PILImage) (h : fsLookup fs path = some img) :
    ((number_tileset font fs path none).2.2)[1]? =
        some ("Tiles per row: " ++ toString (img.width / 16) ++ ", Tiles per column: " ++
          toString (img.height / 16))
    ∧ (∃ out, fsLookup (number_tileset font fs path none).2.1
          ((os_path_splitext path).1 ++ "-numbered.png") = some out
        ∧ out.ops = img.ops ++ tilesDrawn font 16 (img.width / 16) (img.height / 16))
    ∧ (∀ w h2, print_tile_reference_default w h2 = print_tile_reference w h2 16) := by
  refine ⟨?_, ?_, fun w h2 => rfl⟩
  · rw [number_tileset_found font fs path none img h]
    rfl
  · rw [number_tileset_found font fs path none img h]
    exact ⟨_, fsLookup_write_self .., rfl⟩

/-- C10 witness: the sample filesystem. -/
theorem claim_cell_size_fixed_16_witness :
    fsLookup sampleFS "dir/tileset.png" = some sampleImg
    ∧ (((number_tileset monoFont sampleFS "dir/tileset.png" none).2.2)[1]? =
        some ("Tiles per row: " ++ toString (sampleImg.width / 16) ++
          ", Tiles per column: " ++ toString (sampleImg.height / 16))
      ∧ (∃ out, fsLookup (number_tileset monoFont sampleFS "dir/tileset.png" none).2.1
            ((os_path_splitext "dir/tileset.png").1 ++ "-numbered.png") = some out
          ∧ out.ops = sampleImg.ops ++
              tilesDrawn monoFont 16 (sampleImg.width / 16) (sampleImg.height / 16))
      ∧ (∀ w h2, print_tile_reference_default w h2 = print_tile_reference w h2 16)) :=
  ⟨by decide,
   claim_cell_size_fixed_16 monoFont sampleFS "dir/tileset.png" sampleImg (by decide)⟩
